import Mathlib

/-!
Verification of the playlist pipeline's persistence and orchestration core.

The Python source (src/db_manager.py, src/music_scanner.py, src/main.py) is
shallowly embedded below: the JSON-file-backed stores become pure functions on
explicit state values, timestamps (datetime.now) become explicit string
parameters, and the file/lock I/O layer is elided (a successful save returns
true; the in-memory `_data` cache and the file hold the same value within one
instance, which is the granularity all claims are stated at).
-/

namespace Playlist

/-! ## Data model (db_manager.py, TrackDB default record, lines 157-192) -/

/-- Music stage sub-record of a track (db_manager.py lines 163-170). -/
structure MusicRec where
  status : String
  file_path : Option String
  suno_task_id : Option String
  suno_prompt : Option String
  duration_seconds : Option Nat
  generated_at : Option String
deriving Repr, DecidableEq

/-- Image stage sub-record of a track (db_manager.py lines 171-179). -/
structure ImageRec where
  status : String
  file_path : Option String
  prompt_used : Option String
  style : Option String
  resolution : Option String
  format : Option String
  generated_at : Option String
deriving Repr, DecidableEq

/-- Video stage sub-record of a track (db_manager.py lines 180-185). -/
structure VideoRec where
  status : String
  file_path : Option String
  resolution : Option String
  generated_at : Option String
deriving Repr, DecidableEq

/-- Thumbnail stage sub-record of a track (db_manager.py lines 186-189). -/
structure ThumbnailRec where
  status : String
  file_path : Option String
deriving Repr, DecidableEq

/-- One error_log entry: {timestamp, stage, message} (db_manager.py lines 311-315). -/
structure ErrorEntry where
  timestamp : String
  stage : String
  message : String
deriving Repr, DecidableEq

/-- One item record, as created by TrackDB.add_track's default structure
(db_manager.py lines 158-192): four stage sub-records, an error log and a
retry count. -/
structure Track where
  track_id : String
  created_at : String
  updated_at : String
  music : MusicRec
  image : ImageRec
  video : VideoRec
  thumbnail : ThumbnailRec
  error_log : List ErrorEntry
  retry_count : Nat
deriving Repr, DecidableEq

/-- Default track record built by add_track when initial_data is None
(db_manager.py lines 158-192).  The argument now stands for
datetime.now().isoformat(). -/
def defaultTrack (track_id now : String) : Track :=
  { track_id := track_id
    created_at := now
    updated_at := now
    music := { status := "pending", file_path := none, suno_task_id := none,
               suno_prompt := none, duration_seconds := none, generated_at := none }
    image := { status := "pending", file_path := none, prompt_used := none,
               style := none, resolution := none, format := none, generated_at := none }
    video := { status := "pending", file_path := none, resolution := none,
               generated_at := none }
    thumbnail := { status := "pending", file_path := none }
    error_log := []
    retry_count := 0 }

/-! ## TrackDB operations

The tracks mapping of tracks.json is a JSON object keyed by track id; it is
embedded as an insertion-ordered association list with unique keys, which is
how Python dict insertion and lookup behave. -/

/-- Track store: the "tracks" object of tracks.json. -/
abbrev TrackStore := List (String × Track)

/-- Dict lookup on the tracks object (data["tracks"].get(track_id)). -/
def tracksLookup : TrackStore → String → Option Track
  | [], _ => none
  | p :: rest, track_id =>
    if p.1 = track_id then some p.2 else tracksLookup rest track_id

/-- Number of records stored under a given id. -/
def tracksCountKey (ts : TrackStore) (track_id : String) : Nat :=
  List.countP (fun p => p.1 = track_id) ts

/-- TrackDB.add_track (db_manager.py lines 140-196): no-op returning False
when the id is already present, otherwise inserts the given initial data or
the default record and returns True (save is modelled as succeeding). -/
def addTrack (ts : TrackStore) (track_id : String) (initial : Option Track)
    (now : String) : Bool × TrackStore :=
  if (tracksLookup ts track_id).isSome then (false, ts)
  else (true, ts ++ [(track_id, initial.getD (defaultTrack track_id now))])

/-- Dict assignment tracks[track_id] = t on the association list: replaces the
value at the key if present, otherwise appends. -/
def tracksSet (ts : TrackStore) (track_id : String) (t : Track) : TrackStore :=
  match ts with
  | [] => [(track_id, t)]
  | p :: rest =>
    if p.1 = track_id then (track_id, t) :: rest
    else p :: tracksSet rest track_id t

/-- Stage-status assignment track[stage]["status"] = status of
TrackDB.update_status (db_manager.py lines 239-252), for the four stage
sub-record keys; none models the `stage not in track` → return False path.
(Passing a non-stage key of the record, such as error_log, makes the Python
raise a TypeError before returning; only the stage keys are claim-relevant.) -/
def setStageStatus (t : Track) (stage status now : String) : Option Track :=
  if stage = "music" then
    some { t with music := { t.music with status := status }, updated_at := now }
  else if stage = "image" then
    some { t with image := { t.image with status := status }, updated_at := now }
  else if stage = "video" then
    some { t with video := { t.video with status := status }, updated_at := now }
  else if stage = "thumbnail" then
    some { t with thumbnail := { t.thumbnail with status := status }, updated_at := now }
  else none

/-- TrackDB.update_status (db_manager.py lines 227-252) at the store level. -/
def updateStatus (ts : TrackStore) (track_id stage status now : String) :
    Bool × TrackStore :=
  match tracksLookup ts track_id with
  | none => (false, ts)
  | some t =>
    match setStageStatus t stage status now with
    | none => (false, ts)
    | some t2 => (true, tracksSet ts track_id t2)

/-- Error-log append with bound (db_manager.py lines 308-319): append the new
entry, then keep only the most recent 10 (error_log[-10:]) when the length
exceeds 10. -/
def appendErrorBounded (log : List ErrorEntry) (e : ErrorEntry) : List ErrorEntry :=
  let log2 := log ++ [e]
  if log2.length > 10 then log2.drop (log2.length - 10) else log2

/-- TrackDB.add_error_log (db_manager.py lines 290-323) at the store level. -/
def addErrorLog (ts : TrackStore) (track_id stage message now : String) :
    Bool × TrackStore :=
  match tracksLookup ts track_id with
  | none => (false, ts)
  | some t =>
    let e : ErrorEntry := { timestamp := now, stage := stage, message := message }
    (true, tracksSet ts track_id { t with error_log := appendErrorBounded t.error_log e })

/-- Suffix of the last n elements of a list (Python list[-n:], also the result
shape of the error-log truncation). -/
def takeLast (n : Nat) (l : List α) : List α := l.drop (l.length - n)

/-! ## FailedTasksDB (db_manager.py lines 386-530)

The failure ledger file failed_tasks.json holds the list "failed_tasks"; it is
embedded as that list. -/

/-- One failure ledger entry (db_manager.py lines 471-477). -/
structure FailedTask where
  track_id : String
  stage : String
  failed_at : String
  error_message : String
  retry_count : Nat
deriving Repr, DecidableEq

/-- Key match used by the ledger's duplicate check: same track_id and stage
(db_manager.py line 463). -/
def taskKeyMatch (track_id stage : String) (t : FailedTask) : Bool :=
  t.track_id = track_id && t.stage = stage

/-- FailedTasksDB.add_failed_task (db_manager.py lines 445-481): walks the
list; the first entry with the same (track_id, stage) has its failed_at,
error_message and retry_count updated in place and the walk stops there;
when no entry matches, a new entry is appended at the end. -/
def addFailedTask (tasks : List FailedTask) (track_id stage error now : String)
    (retry_count : Nat) : List FailedTask :=
  match tasks with
  | [] => [{ track_id := track_id, stage := stage, failed_at := now,
             error_message := error, retry_count := retry_count }]
  | t :: rest =>
    if taskKeyMatch track_id stage t then
      { t with failed_at := now, error_message := error, retry_count := retry_count } :: rest
    else t :: addFailedTask rest track_id stage error now retry_count

/-- FailedTasksDB.remove_failed_task (db_manager.py lines 493-514): keeps every
entry whose (track_id, stage) differs. -/
def removeFailedTask (tasks : List FailedTask) (track_id stage : String) :
    List FailedTask :=
  tasks.filter (fun t => !(taskKeyMatch track_id stage t))

/-- Result dictionary of FailedTasksDB.retry_all_failed (db_manager.py
lines 521-530). -/
structure RetryAllResult where
  total : Nat
  tasks : List FailedTask
deriving Repr, DecidableEq

/-- FailedTasksDB.retry_all_failed (db_manager.py lines 516-530): reads the
ledger via get_failed_tasks and returns its length and contents.  The method
performs no mutation, so the ledger state after the call is returned
unchanged. -/
def retryAllFailed (tasks : List FailedTask) : RetryAllResult × List FailedTask :=
  ({ total := tasks.length, tasks := tasks }, tasks)

/-- Ledger key-uniqueness invariant: no two entries share (track_id, stage). -/
def LedgerUnique (tasks : List FailedTask) : Prop :=
  tasks.Pairwise (fun a b => ¬(a.track_id = b.track_id ∧ a.stage = b.stage))

/-! ## CheckpointDB (db_manager.py lines 533-646)

The checkpoint slot is the content of checkpoint.json (equivalently the _data
cache once loaded): absent, or one record. -/

/-- Checkpoint record shape (db_manager.py lines 590-598). -/
structure Checkpoint where
  is_running : Bool
  started_at : String
  current_stage : String
  current_track_id : String
  completed_tracks : List String
  pending_tracks : List String
  last_updated : String
deriving Repr, DecidableEq

/-- CheckpointDB.load (db_manager.py lines 550-569): returns the stored record
only when its is_running flag is true; a record with is_running false, like an
absent file, yields None. -/
def checkpointLoad (slot : Option Checkpoint) : Option Checkpoint :=
  match slot with
  | some c => if c.is_running then some c else none
  | none => none

/-- CheckpointDB.save_checkpoint (db_manager.py lines 571-607): overwrites the
slot with is_running true and the given snapshot; started_at and last_updated
both take the current time. -/
def saveCheckpoint (stage track_id : String) (completed pending : List String)
    (now : String) : Option Checkpoint :=
  some { is_running := true, started_at := now, current_stage := stage,
         current_track_id := track_id, completed_tracks := completed,
         pending_tracks := pending, last_updated := now }

/-- CheckpointDB.clear_checkpoint (db_manager.py lines 609-636): sets
is_running to false on the stored record (keeping the rest for audit); when no
record exists it succeeds without change. -/
def clearCheckpoint (slot : Option Checkpoint) (now : String) : Option Checkpoint :=
  match slot with
  | some c => some { c with is_running := false, last_updated := now }
  | none => none

/-- CheckpointDB.has_checkpoint (db_manager.py lines 638-646). -/
def hasCheckpoint (slot : Option Checkpoint) : Bool :=
  (checkpointLoad slot).isSome

/-! ## MusicScanner.sync_with_db (music_scanner.py lines 148-198)

The observed filesystem reality is the dictionary returned by
check_file_status (music_scanner.py lines 104-146).  sync_with_db builds a
per-stage updates dictionary and, when non-empty, applies it through
TrackDB.update_track; on the two-level {stage: {status, file_path}} shape it
builds, that merge amounts to assigning the listed fields of the stage
sub-record while leaving its other fields alone. -/

/-- Observed file status for one track (music_scanner.py lines 114-122):
per stage, whether the file exists and at which path (the path is filled
exactly when the file exists). -/
structure FileStatus where
  music_exists : Bool
  music_path : Option String
  image_exists : Bool
  image_path : Option String
  video_exists : Bool
  video_path : Option String
deriving Repr, DecidableEq

/-- Pending updates for one stage sub-record, as accumulated into the updates
dictionary of sync_with_db: an absent field means the key was not added. -/
structure StageSync where
  status : Option String
  file_path : Option (Option String)
deriving Repr, DecidableEq

/-- One stage block of sync_with_db (music_scanner.py lines 165-173, repeated
verbatim for image at lines 175-183 and video at lines 185-193): when the file
exists, a status key is added iff the stored status is not completed and a
file_path key is added iff the stored path differs from the observed one; when
the file is absent, a status key demoting to pending is added iff the stored
status is completed. -/
def stageSyncUpdates (status : String) (file_path : Option String)
    (fileExists : Bool) (observedPath : Option String) : StageSync :=
  if fileExists then
    { status := if status ≠ "completed" then some "completed" else none,
      file_path := if file_path ≠ observedPath then some observedPath else none }
  else
    { status := if status = "completed" then some "pending" else none,
      file_path := none }

/-- Emptiness test for a stage's pending updates (no keys were added). -/
def stageSyncEmpty (u : StageSync) : Bool :=
  u.status.isNone && u.file_path.isNone

/-- Application of a stage's pending updates to the music sub-record (the
effect of update_track's one-level dict merge on it). -/
def applyMusicSync (m : MusicRec) (u : StageSync) : MusicRec :=
  { m with status := u.status.getD m.status, file_path := u.file_path.getD m.file_path }

/-- Application of a stage's pending updates to the image sub-record. -/
def applyImageSync (m : ImageRec) (u : StageSync) : ImageRec :=
  { m with status := u.status.getD m.status, file_path := u.file_path.getD m.file_path }

/-- Application of a stage's pending updates to the video sub-record. -/
def applyVideoSync (m : VideoRec) (u : StageSync) : VideoRec :=
  { m with status := u.status.getD m.status, file_path := u.file_path.getD m.file_path }

/-- MusicScanner.sync_with_db on one present track (music_scanner.py
lines 148-198): builds the three stages' updates; when all are empty the
record is returned untouched (update_track is not called), otherwise the
updates are merged in and updated_at is bumped. -/
def syncTrack (t : Track) (fs : FileStatus) (now : String) : Track :=
  let mu := stageSyncUpdates t.music.status t.music.file_path fs.music_exists fs.music_path
  let iu := stageSyncUpdates t.image.status t.image.file_path fs.image_exists fs.image_path
  let vu := stageSyncUpdates t.video.status t.video.file_path fs.video_exists fs.video_path
  if stageSyncEmpty mu && stageSyncEmpty iu && stageSyncEmpty vu then t
  else
    { t with music := applyMusicSync t.music mu,
             image := applyImageSync t.image iu,
             video := applyVideoSync t.video vu,
             updated_at := now }

/-! ## Pipeline orchestrator (main.py)

Pipeline state is the triple of the three backing stores.  External
collaborators (image generation, video rendering, the filesystem scan) are
passed in as functions where a claim needs the surrounding control flow. -/

/-- Combined state of the three stores owned by a Pipeline instance. -/
structure PipelineState where
  tracks : TrackStore
  failed_tasks : List FailedTask
  checkpoint : Option Checkpoint
deriving Repr, DecidableEq

/-- Options dictionary recognized by Pipeline.run (main.py lines 170-178);
an absent key reads as its default through options.get. -/
structure RunOptions where
  skip_music : Bool := false
  skip_images : Bool := false
  skip_videos : Bool := false
  force : Bool := false
  limit : Option Nat := none
  style : String := "default"
  auto_resume : Bool := false
  resume : Bool := false
deriving Repr, DecidableEq

/-- Result envelope of Pipeline.run restricted to the claim-relevant keys:
the success flag, the error message and the attached checkpoint. -/
structure RunResult where
  success : Bool
  error : Option String := none
  checkpoint : Option Checkpoint := none
deriving Repr, DecidableEq

/-- Guard failure message of main.py line 199. -/
def incompleteRunError : String :=
  "There is an incomplete run. Use the resume option."

/-- Pipeline.run (main.py lines 183-205), the checkpoint guard and resume
dispatch: when an active checkpoint exists and auto_resume is off, the loaded
checkpoint is attached to an immediate failure result and no store is touched;
otherwise control passes to resume_from_checkpoint (when auto_resume or resume
is set) or to the fresh pipeline body.  Those two continuations are taken as
function arguments, so the guard theorem quantifies over whatever they do. -/
def runGuard (fresh resumeRun : PipelineState → RunResult × PipelineState)
    (opts : RunOptions) (st : PipelineState) : RunResult × PipelineState :=
  let guard :=
    if hasCheckpoint st.checkpoint && !opts.auto_resume then
      checkpointLoad st.checkpoint
    else none
  match guard with
  | some cp =>
    ({ success := false, error := some incompleteRunError, checkpoint := some cp }, st)
  | none =>
    if opts.auto_resume || opts.resume then resumeRun st else fresh st

/-- Remaining work list computed by Pipeline.resume_from_checkpoint for the
image stage (main.py line 494) and the video stage (main.py line 599):
pending_tracks filtered by non-membership in completed_tracks (the Python
builds a set from completed_tracks first; only membership is used). -/
def resumeRemaining (cp : Checkpoint) : List String :=
  cp.pending_tracks.filter (fun tid => !(cp.completed_tracks.contains tid))

/-- Track list handed to the resumed stage's batch operation by
resume_from_checkpoint (main.py lines 487-513 for images, 593-622 for videos):
for the image and video stages the batch receives the remaining list, and is
not invoked at all when that list is empty; for the scan stage resumption
restarts the whole pipeline instead. -/
def resumeStageBatchInput (cp : Checkpoint) : Option (String × List String) :=
  if cp.current_stage = "images" then
    if resumeRemaining cp ≠ [] then some ("images", resumeRemaining cp) else none
  else if cp.current_stage = "videos" then
    if resumeRemaining cp ≠ [] then some ("videos", resumeRemaining cp) else none
  else none

/-! ## TrackDB.update_track and its merge (db_manager.py lines 198-225)

update_track takes an arbitrary nested dictionary of updates, so its merge is
stated over a JSON value type: objects are insertion-ordered association lists
with unique keys, as Python dicts behave. -/

/-- JSON value restricted to the shapes the store holds. -/
inductive JVal where
  | str : String → JVal
  | num : Int → JVal
  | boolean : Bool → JVal
  | null : JVal
  | obj : List (String × JVal) → JVal
deriving Repr

/-- Dict lookup o.get(k) on a JSON object. -/
def objLookup (o : List (String × JVal)) (k : String) : Option JVal :=
  match o with
  | [] => none
  | (k1, v1) :: rest => if k1 = k then some v1 else objLookup rest k

/-- Dict assignment o[k] = v on a JSON object: replaces the value at the key
if present, otherwise appends the pair. -/
def objSet (o : List (String × JVal)) (k : String) (v : JVal) :
    List (String × JVal) :=
  match o with
  | [] => [(k, v)]
  | (k1, v1) :: rest =>
    if k1 = k then (k, v) :: rest else (k1, v1) :: objSet rest k v

/-- Python dict.update(u) on a JSON object: each key of u is assigned into o
in order, replacing existing values wholesale (no recursion). -/
def dictUpdate (o u : List (String × JVal)) : List (String × JVal) :=
  u.foldl (fun acc kv => objSet acc kv.1 kv.2) o

/-- Merge loop of TrackDB.update_track (db_manager.py lines 217-221): for each
top-level key of the updates dict, when both the new value and the existing
value are dicts the existing one is dict.update-d with the new one (one level,
not recursive), otherwise the new value replaces the old. -/
def updateTrackMerge (track updates : List (String × JVal)) :
    List (String × JVal) :=
  updates.foldl
    (fun t kv =>
      match kv.2, objLookup t kv.1 with
      | JVal.obj u, some (JVal.obj e) => objSet t kv.1 (JVal.obj (dictUpdate e u))
      | v, _ => objSet t kv.1 v)
    track

/-- Lookup along a path of keys through nested JSON objects. -/
def objLookupPath (o : List (String × JVal)) : List String → Option JVal
  | [] => some (JVal.obj o)
  | [k] => objLookup o k
  | k :: rest =>
    match objLookup o k with
    | some (JVal.obj o2) => objLookupPath o2 rest
    | _ => none

/-- Modelled from the spec sentence, for comparison with updateTrackMerge (the
claim asserts the code merges recursively at every depth): for each key, if
both existing and new values are mappings, merge recursively; otherwise the
new value replaces the old.  The recursion is bounded by an explicit depth
argument that decreases structurally; any depth at least the nesting depth of
the update value yields the merge the spec describes. -/
def specDeepMerge : Nat → JVal → JVal → JVal
  | _, JVal.str _, u => u
  | _, JVal.num _, u => u
  | _, JVal.boolean _, u => u
  | _, JVal.null, u => u
  | 0, JVal.obj _, u => u
  | d + 1, JVal.obj eo, u =>
    match u with
    | JVal.obj uo =>
      JVal.obj (uo.foldl
        (fun acc kv =>
          match objLookup acc kv.1 with
          | some ex => objSet acc kv.1 (specDeepMerge d ex kv.2)
          | none => objSet acc kv.1 kv.2)
        eo)
    | _ => u

/-- Object-level entry point of the spec-modelled recursive merge. -/
def specDeepMergeObj (d : Nat) (eo uo : List (String × JVal)) :
    List (String × JVal) :=
  uo.foldl
    (fun acc kv =>
      match objLookup acc kv.1 with
      | some ex => objSet acc kv.1 (specDeepMerge d ex kv.2)
      | none => objSet acc kv.1 kv.2)
    eo

/-! ## Helper lemmas -/

lemma tracksLookup_append_last (ts : TrackStore) (track_id : String) (t : Track)
    (h : tracksLookup ts track_id = none) :
    tracksLookup (ts ++ [(track_id, t)]) track_id = some t := by
  induction ts with
  | nil => simp [tracksLookup]
  | cons p rest ih =>
    by_cases hp : p.1 = track_id
    · simp [tracksLookup, hp] at h
    · simp only [tracksLookup, hp, if_false, List.cons_append] at h ⊢
      exact ih h

lemma tracksCountKey_eq_zero (ts : TrackStore) (track_id : String)
    (h : tracksLookup ts track_id = none) : tracksCountKey ts track_id = 0 := by
  induction ts with
  | nil => rfl
  | cons p rest ih =>
    by_cases hp : p.1 = track_id
    · simp [tracksLookup, hp] at h
    · simp only [tracksLookup, hp, if_false] at h
      simp [tracksCountKey, List.countP_cons, hp] at ih ⊢
      exact ih h

/-! ## Claims on TrackDB.add_track and the default record -/

/-- C9: adding an item id is idempotent at the Record Store interface: on a
store without the id, add_track reports success and stores the default record
with the music, image and video stages pending; a second add_track for the
same id reports False and leaves the store unchanged, so exactly one record
for the id exists after adding it twice. -/
theorem add_track_idempotent (ts : TrackStore) (track_id now now2 : String)
    (h : tracksLookup ts track_id = none) :
    (addTrack ts track_id none now).1 = true
  ∧ tracksLookup (addTrack ts track_id none now).2 track_id
      = some (defaultTrack track_id now)
  ∧ (defaultTrack track_id now).music.status = "pending"
  ∧ (defaultTrack track_id now).image.status = "pending"
  ∧ (defaultTrack track_id now).video.status = "pending"
  ∧ addTrack (addTrack ts track_id none now).2 track_id none now2
      = (false, (addTrack ts track_id none now).2)
  ∧ tracksCountKey
      (addTrack (addTrack ts track_id none now).2 track_id none now2).2 track_id = 1 := by
  have hfst : addTrack ts track_id none now
      = (true, ts ++ [(track_id, defaultTrack track_id now)]) := by
    simp [addTrack, h, Option.getD]
  have hlook : tracksLookup (ts ++ [(track_id, defaultTrack track_id now)]) track_id
      = some (defaultTrack track_id now) := tracksLookup_append_last ts track_id _ h
  have hsnd : addTrack (ts ++ [(track_id, defaultTrack track_id now)]) track_id none now2
      = (false, ts ++ [(track_id, defaultTrack track_id now)]) := by
    simp [addTrack, hlook]
  have hcount : tracksCountKey (ts ++ [(track_id, defaultTrack track_id now)]) track_id = 1 := by
    have h0 := tracksCountKey_eq_zero ts track_id h
    simp [tracksCountKey, List.countP_append] at h0 ⊢
    simpa [List.countP_cons] using h0
  refine ⟨by rw [hfst], ?_, rfl, rfl, rfl, ?_, ?_⟩
  · rw [hfst]; exact hlook
  · rw [hfst]; exact hsnd
  · rw [hfst]; rw [hsnd]; exact hcount

/-- C9 witness: concrete instantiation on the empty store. -/
theorem add_track_idempotent_witness :
    tracksLookup ([] : TrackStore) "t1" = none
  ∧ addTrack (addTrack [] "t1" none "d0").2 "t1" none "d1"
      = (false, (addTrack [] "t1" none "d0").2) :=
  ⟨rfl, (add_track_idempotent [] "t1" "d0" "d1" rfl).2.2.2.2.2.1⟩

/-- C10: the default record created by add_track carries a fourth thumbnail
stage sub-record with status pending and file_path null, and update_status
accepts thumbnail as a stage name in addition to music, image and video. -/
theorem thumbnail_fourth_stage (track_id now status now2 : String) :
    (defaultTrack track_id now).thumbnail.status = "pending"
  ∧ (defaultTrack track_id now).thumbnail.file_path = none
  ∧ (∀ t : Track, setStageStatus t "thumbnail" status now2
      = some { t with thumbnail := { t.thumbnail with status := status },
                      updated_at := now2 })
  ∧ (∀ t : Track,
        (setStageStatus t "music" status now2).isSome
      ∧ (setStageStatus t "image" status now2).isSome
      ∧ (setStageStatus t "video" status now2).isSome) := by
  refine ⟨rfl, rfl, fun t => rfl, fun t => ⟨rfl, rfl, rfl⟩⟩

/-! ## Claim on the Checkpoint Store round-trip -/

/-- C3: save_checkpoint followed by load returns an active checkpoint with
exactly the saved stage, current track id, completed and pending lists and
is_running true; clear_checkpoint followed by load returns none, and more
generally any stored record whose is_running flag is false is treated as no
checkpoint by load. -/
theorem checkpoint_round_trip (stage track_id : String)
    (completed pending : List String) (now now2 : String) :
    checkpointLoad (saveCheckpoint stage track_id completed pending now)
      = some { is_running := true, started_at := now, current_stage := stage,
               current_track_id := track_id, completed_tracks := completed,
               pending_tracks := pending, last_updated := now }
  ∧ checkpointLoad
      (clearCheckpoint (saveCheckpoint stage track_id completed pending now) now2) = none
  ∧ hasCheckpoint
      (clearCheckpoint (saveCheckpoint stage track_id completed pending now) now2) = false
  ∧ (∀ c : Checkpoint, c.is_running = false → checkpointLoad (some c) = none) := by
  refine ⟨rfl, rfl, rfl, fun c hc => ?_⟩
  simp [checkpointLoad, hc]

/-- C3 witness: the round-trip at the concrete values of the spec's example,
and a concrete inactive record treated as no checkpoint. -/
theorem checkpoint_round_trip_witness :
    checkpointLoad (saveCheckpoint "image" "t5" ["t1", "t2"] ["t3", "t4"] "d0")
      = some { is_running := true, started_at := "d0", current_stage := "image",
               current_track_id := "t5", completed_tracks := ["t1", "t2"],
               pending_tracks := ["t3", "t4"], last_updated := "d0" }
  ∧ checkpointLoad
      (clearCheckpoint (saveCheckpoint "image" "t5" ["t1", "t2"] ["t3", "t4"] "d0") "d1")
      = none
  ∧ checkpointLoad
      (some { is_running := false, started_at := "d0", current_stage := "image",
              current_track_id := "t5", completed_tracks := ["t1", "t2"],
              pending_tracks := ["t3", "t4"], last_updated := "d1" }) = none :=
  ⟨(checkpoint_round_trip "image" "t5" ["t1", "t2"] ["t3", "t4"] "d0" "d1").1,
   (checkpoint_round_trip "image" "t5" ["t1", "t2"] ["t3", "t4"] "d0" "d1").2.1,
   (checkpoint_round_trip "image" "t5" ["t1", "t2"] ["t3", "t4"] "d0" "d1").2.2.2
     { is_running := false, started_at := "d0", current_stage := "image",
       current_track_id := "t5", completed_tracks := ["t1", "t2"],
       pending_tracks := ["t3", "t4"], last_updated := "d1" } rfl⟩

/-! ## Claim on retry_all_failed (the drain-all operation) -/

/-- Ledger entry used in the retry_all_failed counterexample. -/
def exampleFailedTask : FailedTask :=
  { track_id := "t1", stage := "image", failed_at := "d0",
    error_message := "boom", retry_count := 0 }

/-- C4 counterexample: retry_all_failed does not clear the ledger: on a ledger
holding one entry, the ledger still holds that entry after the call, so the
claimed clears-atomically behaviour is false. -/
theorem retry_all_does_not_clear_cx :
    (retryAllFailed [exampleFailedTask]).2 = [exampleFailedTask]
  ∧ (retryAllFailed [exampleFailedTask]).2 ≠ [] := by
  exact ⟨rfl, by decide⟩

/-- C4 amended: retry_all_failed returns all current entries and their count
but performs no mutation: the ledger afterwards is exactly the ledger before.
Entries are only removed one-by-one by remove_failed_task when a retry
succeeds (main.py lines 823-840). -/
theorem retry_all_returns_without_clearing (tasks : List FailedTask) :
    retryAllFailed tasks = ({ total := tasks.length, tasks := tasks }, tasks) := rfl

/-! ## Claim on the failure ledger upsert -/

lemma taskKeyMatch_iff (track_id stage : String) (t : FailedTask) :
    taskKeyMatch track_id stage t = true ↔ t.track_id = track_id ∧ t.stage = stage := by
  simp [taskKeyMatch]

lemma addFailedTask_cons_pos (t : FailedTask) (rest : List FailedTask)
    (track_id stage err now : String) (rc : Nat)
    (hm : taskKeyMatch track_id stage t = true) :
    addFailedTask (t :: rest) track_id stage err now rc
      = { t with failed_at := now, error_message := err, retry_count := rc } :: rest := by
  simp [addFailedTask, hm]

lemma addFailedTask_cons_neg (t : FailedTask) (rest : List FailedTask)
    (track_id stage err now : String) (rc : Nat)
    (hm : taskKeyMatch track_id stage t = false) :
    addFailedTask (t :: rest) track_id stage err now rc
      = t :: addFailedTask rest track_id stage err now rc := by
  simp [addFailedTask, hm]

lemma mem_addFailedTask_key (tasks : List FailedTask)
    (track_id stage err now : String) (rc : Nat) :
    ∀ b ∈ addFailedTask tasks track_id stage err now rc,
      (∃ a ∈ tasks, a.track_id = b.track_id ∧ a.stage = b.stage)
    ∨ (b.track_id = track_id ∧ b.stage = stage) := by
  induction tasks with
  | nil =>
    intro b hb
    simp [addFailedTask] at hb
    right
    rw [hb]
    exact ⟨rfl, rfl⟩
  | cons t rest ih =>
    intro b hb
    cases hm : taskKeyMatch track_id stage t with
    | true =>
      rw [addFailedTask_cons_pos t rest track_id stage err now rc hm] at hb
      rcases List.mem_cons.mp hb with hb | hb
      · left
        exact ⟨t, List.mem_cons_self t rest, by rw [hb], by rw [hb]⟩
      · left
        exact ⟨b, List.mem_cons_of_mem t hb, rfl, rfl⟩
    | false =>
      rw [addFailedTask_cons_neg t rest track_id stage err now rc hm] at hb
      rcases List.mem_cons.mp hb with hb | hb
      · left
        exact ⟨t, List.mem_cons_self t rest, by rw [hb], by rw [hb]⟩
      · rcases ih b hb with ⟨a, ha, h1, h2⟩ | hk
        · exact Or.inl ⟨a, List.mem_cons_of_mem t ha, h1, h2⟩
        · exact Or.inr hk

/-- C6: the Failure Ledger keeps at most one entry per (track_id, stage):
starting from any key-unique ledger, add_failed_task preserves key-uniqueness,
leaves exactly one entry for the recorded pair, that entry (the first match,
updated in place) carries the latest message, timestamp and retry count, and
when the pair was already present no entry is appended (length unchanged). -/
theorem failed_task_upsert (tasks : List FailedTask) (track_id stage err now : String)
    (rc : Nat) (h : LedgerUnique tasks) :
    LedgerUnique (addFailedTask tasks track_id stage err now rc)
  ∧ (addFailedTask tasks track_id stage err now rc).countP (taskKeyMatch track_id stage) = 1
  ∧ (addFailedTask tasks track_id stage err now rc).find? (taskKeyMatch track_id stage)
      = some { track_id := track_id, stage := stage, failed_at := now,
               error_message := err, retry_count := rc }
  ∧ (tasks.any (taskKeyMatch track_id stage) = true →
       (addFailedTask tasks track_id stage err now rc).length = tasks.length) := by
  induction tasks with
  | nil =>
    refine ⟨?_, ?_, ?_, ?_⟩
    · simp [addFailedTask, LedgerUnique]
    · simp [addFailedTask, List.countP_cons, taskKeyMatch]
    · simp [addFailedTask, List.find?, taskKeyMatch]
    · intro hany
      simp at hany
  | cons t rest ih =>
    rw [LedgerUnique, List.pairwise_cons] at h
    obtain ⟨hhead, htail⟩ := h
    cases hm : taskKeyMatch track_id stage t with
    | true =>
      obtain ⟨htid, hst⟩ := (taskKeyMatch_iff track_id stage t).mp hm
      have ht2 : ({ t with failed_at := now, error_message := err, retry_count := rc }
          : FailedTask)
          = { track_id := track_id, stage := stage, failed_at := now,
              error_message := err, retry_count := rc } := by
        cases t
        simp_all
      have hrest0 : rest.countP (taskKeyMatch track_id stage) = 0 := by
        rw [List.countP_eq_zero]
        intro b hbmem hbmatch
        obtain ⟨hb1, hb2⟩ := (taskKeyMatch_iff track_id stage b).mp hbmatch
        exact hhead b hbmem ⟨htid.trans hb1.symm, hst.trans hb2.symm⟩
      rw [addFailedTask_cons_pos t rest track_id stage err now rc hm, ht2]
      refine ⟨?_, ?_, ?_, ?_⟩
      · rw [LedgerUnique, List.pairwise_cons]
        refine ⟨fun b hbmem hkey => ?_, htail⟩
        exact hhead b hbmem ⟨htid.trans hkey.1, hst.trans hkey.2⟩
      · simp [List.countP_cons, hrest0, taskKeyMatch]
      · simp [taskKeyMatch]
      · intro _
        simp
    | false =>
      have ih2 := ih htail
      rw [addFailedTask_cons_neg t rest track_id stage err now rc hm]
      refine ⟨?_, ?_, ?_, ?_⟩
      · rw [LedgerUnique, List.pairwise_cons]
        refine ⟨fun b hbmem hkey => ?_, ih2.1⟩
        rcases mem_addFailedTask_key rest track_id stage err now rc b hbmem with
          ⟨a, ha, ha1, ha2⟩ | ⟨hb1, hb2⟩
        · exact hhead a ha ⟨hkey.1.trans ha1.symm, hkey.2.trans ha2.symm⟩
        · have : taskKeyMatch track_id stage t = true :=
            (taskKeyMatch_iff track_id stage t).mpr
              ⟨hkey.1.trans hb1, hkey.2.trans hb2⟩
          rw [hm] at this
          exact Bool.false_ne_true this
      · rw [List.countP_cons]
        simp [hm, ih2.2.1]
      · simp [hm, ih2.2.2.1]
      · intro hany
        rw [List.any_cons, hm, Bool.false_or] at hany
        simp only [List.length_cons]
        rw [ih2.2.2.2 hany]

/-- Ledger entry used to instantiate the upsert claim. -/
def upsertExampleEntry : FailedTask :=
  { track_id := "t1", stage := "image", failed_at := "d1",
    error_message := "e1", retry_count := 0 }

/-- C6 witness: recording a second failure for the same (id, stage) pair on a
one-entry ledger keeps exactly one entry, carrying the latest message and
timestamp. -/
theorem failed_task_upsert_witness :
    LedgerUnique [upsertExampleEntry]
  ∧ (addFailedTask [upsertExampleEntry] "t1" "image" "e2" "d2" 1).countP
      (taskKeyMatch "t1" "image") = 1
  ∧ (addFailedTask [upsertExampleEntry] "t1" "image" "e2" "d2" 1).find?
      (taskKeyMatch "t1" "image")
      = some { track_id := "t1", stage := "image", failed_at := "d2",
               error_message := "e2", retry_count := 1 } := by
  have hu : LedgerUnique [upsertExampleEntry] := by
    rw [LedgerUnique]
    exact List.pairwise_singleton _ _
  have h := failed_task_upsert [upsertExampleEntry] "t1" "image" "e2" "d2" 1 hu
  exact ⟨hu, h.2.1, h.2.2.1⟩

/-! ## Claim on the error-log bound -/

lemma takeLast_of_length_le {n : Nat} {l : List α} (h : l.length ≤ n) :
    takeLast n l = l := by
  unfold takeLast
  rw [Nat.sub_eq_zero_of_le h, List.drop_zero]

lemma length_takeLast (n : Nat) (l : List α) : (takeLast n l).length ≤ n := by
  simp only [takeLast, List.length_drop]
  omega

lemma appendErrorBounded_eq_takeLast (log : List ErrorEntry) (e : ErrorEntry) :
    appendErrorBounded log e = takeLast 10 (log ++ [e]) := by
  unfold appendErrorBounded takeLast
  by_cases h : (log ++ [e]).length > 10
  · rw [if_pos h]
  · rw [if_neg h]
    have h0 : (log ++ [e]).length - 10 = 0 := by omega
    rw [h0, List.drop_zero]

lemma takeLast_append_takeLast (n : Nat) (x y : List α) :
    takeLast n (takeLast n x ++ y) = takeLast n (x ++ y) := by
  by_cases h : x.length ≤ n
  · rw [takeLast_of_length_le h]
  · push_neg at h
    unfold takeLast
    rw [List.drop_append_eq_append_drop, List.drop_append_eq_append_drop,
        List.drop_drop]
    simp only [List.length_append, List.length_drop]
    congr 1
    · congr 1
      omega
    · congr 1
      omega

/-- C7: an item's error_log is a bounded ordered sequence with oldest-first
eviction: starting from any log within the bound, any sequence of appends
leaves exactly the most recent at-most-10 entries of old-log-then-appends, in
append order, and the bound is maintained. -/
theorem error_log_bound (log es : List ErrorEntry) (h : log.length ≤ 10) :
    es.foldl appendErrorBounded log = takeLast 10 (log ++ es)
  ∧ (es.foldl appendErrorBounded log).length ≤ 10 := by
  have main : ∀ (es log : List ErrorEntry), log.length ≤ 10 →
      es.foldl appendErrorBounded log = takeLast 10 (log ++ es) := by
    intro es
    induction es with
    | nil =>
      intro log hl
      simp only [List.foldl_nil, List.append_nil]
      exact (takeLast_of_length_le hl).symm
    | cons e rest ih =>
      intro log hl
      rw [List.foldl_cons,
          ih (appendErrorBounded log e)
            (by rw [appendErrorBounded_eq_takeLast]; exact length_takeLast 10 _),
          appendErrorBounded_eq_takeLast, takeLast_append_takeLast,
          List.append_assoc, List.singleton_append]
  refine ⟨main es log h, ?_⟩
  rw [main es log h]
  exact length_takeLast 10 _

/-- Error entries used to instantiate the error-log bound claim. -/
def fifteenErrors : List ErrorEntry :=
  (List.range 15).map
    (fun i => { timestamp := toString i, stage := "image", message := toString i })

/-- C7 witness: appending 15 entries to an empty error log leaves exactly the
last 10 in order, the oldest 5 discarded. -/
theorem error_log_bound_witness :
    ([] : List ErrorEntry).length ≤ 10
  ∧ fifteenErrors.foldl appendErrorBounded [] = takeLast 10 ([] ++ fifteenErrors)
  ∧ takeLast 10 ([] ++ fifteenErrors)
      = ((List.range 15).drop 5).map
          (fun i => { timestamp := toString i, stage := "image", message := toString i }) :=
  ⟨by decide, (error_log_bound [] fifteenErrors (by decide)).1, by decide⟩

/-! ## Claim on resume skipping completed tracks -/

/-- C1: during resume_from_checkpoint with a checkpoint at the image or video
stage, the list handed to that stage's batch operation is exactly
pending_tracks minus completed_tracks: an id is in it iff it is pending and
not completed, and a completed id is never in it even when it also appears in
pending_tracks. -/
theorem resume_skips_completed (cp : Checkpoint) (stage : String) (l : List String)
    (h : resumeStageBatchInput cp = some (stage, l)) :
    l = cp.pending_tracks.filter (fun tid => !(cp.completed_tracks.contains tid))
  ∧ (∀ tid, tid ∈ l ↔ tid ∈ cp.pending_tracks ∧ tid ∉ cp.completed_tracks)
  ∧ (∀ tid ∈ cp.completed_tracks, tid ∉ l) := by
  have hl : l = resumeRemaining cp := by
    unfold resumeStageBatchInput at h
    split_ifs at h <;> simp_all
  have hmem : ∀ tid, tid ∈ l ↔ tid ∈ cp.pending_tracks ∧ tid ∉ cp.completed_tracks := by
    intro tid
    rw [hl]
    simp [resumeRemaining, List.mem_filter]
  refine ⟨hl, hmem, fun tid hc hmem2 => ?_⟩
  exact ((hmem tid).mp hmem2).2 hc

/-- Checkpoint used to instantiate the resume claim: completed contains t1,
pending contains t1 and t2. -/
def resumeExampleCheckpoint : Checkpoint :=
  { is_running := true, started_at := "d0", current_stage := "images",
    current_track_id := "t1", completed_tracks := ["t1"],
    pending_tracks := ["t1", "t2"], last_updated := "d0" }

/-- C1 witness: resuming the image stage on that checkpoint hands exactly
the list containing t2 to the image batch operation, and the completed id t1
is not in it. -/
theorem resume_skips_completed_witness :
    resumeStageBatchInput resumeExampleCheckpoint = some ("images", ["t2"])
  ∧ "t1" ∉ (["t2"] : List String) :=
  ⟨rfl,
   (resume_skips_completed resumeExampleCheckpoint "images" ["t2"] rfl).2.2 "t1"
     (by decide)⟩

/-! ## Claim on the run guard -/

/-- C2: when an active checkpoint exists (is_running true) and auto_resume is
false or absent, run returns immediately with a failure result carrying the
loaded checkpoint, the pipeline state (all three stores) is returned
untouched, and the result does not depend on the fresh-run or resume bodies,
which are therefore never consulted. -/
theorem run_guard_blocks (fresh resumeRun : PipelineState → RunResult × PipelineState)
    (opts : RunOptions) (st : PipelineState) (cp : Checkpoint)
    (hopts : opts.auto_resume = false) (hcp : st.checkpoint = some cp)
    (hrun : cp.is_running = true) :
    runGuard fresh resumeRun opts st
      = ({ success := false, error := some incompleteRunError,
           checkpoint := some cp }, st) := by
  simp [runGuard, hasCheckpoint, checkpointLoad, hcp, hrun, hopts]

/-- Checkpoint used to instantiate the run-guard claim. -/
def guardExampleCheckpoint : Checkpoint :=
  { is_running := true, started_at := "d0", current_stage := "images",
    current_track_id := "t1", completed_tracks := ["t1"],
    pending_tracks := ["t2"], last_updated := "d0" }

/-- Pipeline state used to instantiate the run-guard claim. -/
def guardExampleState : PipelineState :=
  { tracks := [], failed_tasks := [], checkpoint := some guardExampleCheckpoint }

/-- C2 witness: with default options (auto_resume absent) and an active
checkpoint, run returns the failure-with-checkpoint result and the state is
unchanged, whatever the stage bodies would do. -/
theorem run_guard_blocks_witness :
    runGuard (fun s => ({ success := true }, s)) (fun s => ({ success := true }, s))
        {} guardExampleState
      = ({ success := false, error := some incompleteRunError,
           checkpoint := some guardExampleCheckpoint }, guardExampleState) :=
  run_guard_blocks (fun s => ({ success := true }, s))
    (fun s => ({ success := true }, s)) {} guardExampleState guardExampleCheckpoint
    rfl rfl rfl

/-! ## Claim on sync reconciliation -/

lemma applyMusicSync_empty (m : MusicRec) (u : StageSync)
    (h : stageSyncEmpty u = true) : applyMusicSync m u = m := by
  cases u with
  | mk s f =>
    cases s <;> cases f <;> simp_all [stageSyncEmpty, applyMusicSync]

lemma applyImageSync_empty (m : ImageRec) (u : StageSync)
    (h : stageSyncEmpty u = true) : applyImageSync m u = m := by
  cases u with
  | mk s f =>
    cases s <;> cases f <;> simp_all [stageSyncEmpty, applyImageSync]

lemma applyVideoSync_empty (m : VideoRec) (u : StageSync)
    (h : stageSyncEmpty u = true) : applyVideoSync m u = m := by
  cases u with
  | mk s f =>
    cases s <;> cases f <;> simp_all [stageSyncEmpty, applyVideoSync]

lemma syncTrack_stages (t : Track) (fs : FileStatus) (now : String) :
    (syncTrack t fs now).music
      = applyMusicSync t.music
          (stageSyncUpdates t.music.status t.music.file_path fs.music_exists fs.music_path)
  ∧ (syncTrack t fs now).image
      = applyImageSync t.image
          (stageSyncUpdates t.image.status t.image.file_path fs.image_exists fs.image_path)
  ∧ (syncTrack t fs now).video
      = applyVideoSync t.video
          (stageSyncUpdates t.video.status t.video.file_path fs.video_exists fs.video_path) := by
  by_cases hc :
      (stageSyncEmpty
          (stageSyncUpdates t.music.status t.music.file_path fs.music_exists fs.music_path)
        && stageSyncEmpty
          (stageSyncUpdates t.image.status t.image.file_path fs.image_exists fs.image_path)
        && stageSyncEmpty
          (stageSyncUpdates t.video.status t.video.file_path fs.video_exists fs.video_path)) = true
  · obtain ⟨⟨h1, h2⟩, h3⟩ := by simpa [Bool.and_eq_true] using hc
    simp only [syncTrack, hc, if_true]
    rw [applyMusicSync_empty t.music _ h1, applyImageSync_empty t.image _ h2,
        applyVideoSync_empty t.video _ h3]
    exact ⟨rfl, rfl, rfl⟩
  · simp only [syncTrack, hc, if_false]
    exact ⟨rfl, rfl, rfl⟩

/-- C8: sync reconciliation only changes store state that disagrees with the
observed filesystem: per stage, a completed status with the file absent is
demoted to pending (path untouched); a present file forces status completed
and the observed path (correcting a differing stored path); a stage that
already agrees is left entirely unchanged; and stage fields other than status
and file_path are never touched. -/
theorem sync_reconciliation (t : Track) (fs : FileStatus) (now : String) :
    ((fs.music_exists = false → t.music.status = "completed" →
        (syncTrack t fs now).music.status = "pending"
      ∧ (syncTrack t fs now).music.file_path = t.music.file_path)
  ∧ (fs.music_exists = false → t.music.status ≠ "completed" →
        (syncTrack t fs now).music = t.music)
  ∧ (fs.music_exists = true →
        (syncTrack t fs now).music.status = "completed"
      ∧ (syncTrack t fs now).music.file_path = fs.music_path)
  ∧ (fs.music_exists = true → t.music.status = "completed" →
        t.music.file_path = fs.music_path → (syncTrack t fs now).music = t.music)
  ∧ (syncTrack t fs now).music.suno_prompt = t.music.suno_prompt)
  ∧ ((fs.image_exists = false → t.image.status = "completed" →
        (syncTrack t fs now).image.status = "pending"
      ∧ (syncTrack t fs now).image.file_path = t.image.file_path)
  ∧ (fs.image_exists = false → t.image.status ≠ "completed" →
        (syncTrack t fs now).image = t.image)
  ∧ (fs.image_exists = true →
        (syncTrack t fs now).image.status = "completed"
      ∧ (syncTrack t fs now).image.file_path = fs.image_path)
  ∧ (fs.image_exists = true → t.image.status = "completed" →
        t.image.file_path = fs.image_path → (syncTrack t fs now).image = t.image)
  ∧ (syncTrack t fs now).image.prompt_used = t.image.prompt_used)
  ∧ ((fs.video_exists = false → t.video.status = "completed" →
        (syncTrack t fs now).video.status = "pending"
      ∧ (syncTrack t fs now).video.file_path = t.video.file_path)
  ∧ (fs.video_exists = false → t.video.status ≠ "completed" →
        (syncTrack t fs now).video = t.video)
  ∧ (fs.video_exists = true →
        (syncTrack t fs now).video.status = "completed"
      ∧ (syncTrack t fs now).video.file_path = fs.video_path)
  ∧ (fs.video_exists = true → t.video.status = "completed" →
        t.video.file_path = fs.video_path → (syncTrack t fs now).video = t.video)
  ∧ (syncTrack t fs now).video.resolution = t.video.resolution) := by
  obtain ⟨hm, hi, hv⟩ := syncTrack_stages t fs now
  refine ⟨⟨?_, ?_, ?_, ?_, ?_⟩, ⟨?_, ?_, ?_, ?_, ?_⟩, ⟨?_, ?_, ?_, ?_, ?_⟩⟩
  · intro hex hst
    rw [hm]
    simp [stageSyncUpdates, applyMusicSync, hex, hst]
  · intro hex hst
    rw [hm, applyMusicSync_empty]
    simp [stageSyncUpdates, stageSyncEmpty, hex, hst]
  · intro hex
    rw [hm]
    simp only [stageSyncUpdates, hex, if_true]
    constructor
    · by_cases hst : t.music.status = "completed" <;>
        simp [applyMusicSync, hst]
    · by_cases hfp : t.music.file_path = fs.music_path <;>
        simp [applyMusicSync, hfp]
  · intro hex hst hfp
    rw [hm, applyMusicSync_empty]
    simp [stageSyncUpdates, stageSyncEmpty, hex, hst, hfp]
  · rw [hm]
    rfl
  · intro hex hst
    rw [hi]
    simp [stageSyncUpdates, applyImageSync, hex, hst]
  · intro hex hst
    rw [hi, applyImageSync_empty]
    simp [stageSyncUpdates, stageSyncEmpty, hex, hst]
  · intro hex
    rw [hi]
    simp only [stageSyncUpdates, hex, if_true]
    constructor
    · by_cases hst : t.image.status = "completed" <;>
        simp [applyImageSync, hst]
    · by_cases hfp : t.image.file_path = fs.image_path <;>
        simp [applyImageSync, hfp]
  · intro hex hst hfp
    rw [hi, applyImageSync_empty]
    simp [stageSyncUpdates, stageSyncEmpty, hex, hst, hfp]
  · rw [hi]
    rfl
  · intro hex hst
    rw [hv]
    simp [stageSyncUpdates, applyVideoSync, hex, hst]
  · intro hex hst
    rw [hv, applyVideoSync_empty]
    simp [stageSyncUpdates, stageSyncEmpty, hex, hst]
  · intro hex
    rw [hv]
    simp only [stageSyncUpdates, hex, if_true]
    constructor
    · by_cases hst : t.video.status = "completed" <;>
        simp [applyVideoSync, hst]
    · by_cases hfp : t.video.file_path = fs.video_path <;>
        simp [applyVideoSync, hfp]
  · intro hex hst hfp
    rw [hv, applyVideoSync_empty]
    simp [stageSyncUpdates, stageSyncEmpty, hex, hst, hfp]
  · rw [hv]
    rfl

/-- Track record used to instantiate the reconciliation claim: id t9 with
image stage completed and a stored image path. -/
def syncExampleTrack : Track :=
  { defaultTrack "t9" "d0" with
    image := { (defaultTrack "t9" "d0").image with
               status := "completed", file_path := some "/images/t9.png" } }

/-- Observed file status used to instantiate the reconciliation claim: the
image file referenced by t9 has been deleted from disk. -/
def syncExampleStatus : FileStatus :=
  { music_exists := true, music_path := some "/music/t9.mp3",
    image_exists := false, image_path := none,
    video_exists := false, video_path := none }

/-- C8 witness: a record with image.status completed whose image file was
deleted is demoted to image.status pending by sync. -/
theorem sync_reconciliation_witness :
    (syncTrack syncExampleTrack syncExampleStatus "d1").image.status = "pending" :=
  ((sync_reconciliation syncExampleTrack syncExampleStatus "d1").2.1.1 rfl rfl).1

/-! ## Claim on the update_track merge depth -/

/-- Python isinstance(v, dict) test on a JSON value. -/
def isObjJ : JVal → Bool
  | JVal.obj _ => true
  | _ => false

lemma objLookup_objSet (o : List (String × JVal)) (k : String) (v : JVal)
    (k2 : String) :
    objLookup (objSet o k v) k2 = if k2 = k then some v else objLookup o k2 := by
  induction o with
  | nil =>
    by_cases h : k2 = k
    · subst h
      simp [objSet, objLookup]
    · have h3 : ¬(k = k2) := fun hh => h hh.symm
      simp [objSet, objLookup, h, h3]
  | cons p rest ih =>
    by_cases h1 : p.1 = k
    · subst h1
      by_cases h2 : k2 = p.1
      · subst h2
        simp [objSet, objLookup]
      · have h3 : ¬(p.1 = k2) := fun hh => h2 hh.symm
        simp [objSet, objLookup, h2, h3]
    · by_cases h2 : k2 = k
      · subst h2
        simp [objSet, objLookup, h1, ih, fun hh : p.1 = k2 => h1 hh]
      · by_cases h3 : p.1 = k2
        · simp [objSet, objLookup, h1, h2, h3]
        · simp [objSet, objLookup, h1, h2, h3, ih]

lemma objLookup_eq_none_of_not_key (u : List (String × JVal)) (k2 : String)
    (h : k2 ∉ u.map Prod.fst) : objLookup u k2 = none := by
  induction u with
  | nil => rfl
  | cons kv rest ih =>
    simp only [List.map_cons, List.mem_cons] at h
    push_neg at h
    simp only [objLookup]
    rw [if_neg (fun hh => h.1 hh.symm)]
    exact ih h.2

lemma lookup_dictUpdate_of_not_mem (u : List (String × JVal)) :
    ∀ (e : List (String × JVal)) (k2 : String), objLookup u k2 = none →
      objLookup (dictUpdate e u) k2 = objLookup e k2 := by
  induction u with
  | nil => intro e k2 _; rfl
  | cons kv rest ih =>
    intro e k2 h
    simp only [objLookup] at h
    by_cases hk : kv.1 = k2
    · rw [if_pos hk] at h
      exact absurd h (by simp)
    · rw [if_neg hk] at h
      have hstep : dictUpdate e (kv :: rest) = dictUpdate (objSet e kv.1 kv.2) rest := rfl
      rw [hstep, ih (objSet e kv.1 kv.2) k2 h, objLookup_objSet]
      rw [if_neg (fun hh : k2 = kv.1 => hk hh.symm)]

lemma lookup_dictUpdate_of_mem (u : List (String × JVal)) :
    ∀ (e : List (String × JVal)) (k2 : String) (v : JVal),
      (u.map Prod.fst).Nodup → objLookup u k2 = some v →
      objLookup (dictUpdate e u) k2 = some v := by
  induction u with
  | nil => intro e k2 v _ h; exact absurd h (by simp [objLookup])
  | cons kv rest ih =>
    intro e k2 v hnd h
    simp only [List.map_cons, List.nodup_cons] at hnd
    simp only [objLookup] at h
    have hstep : dictUpdate e (kv :: rest) = dictUpdate (objSet e kv.1 kv.2) rest := rfl
    by_cases hk : kv.1 = k2
    · rw [if_pos hk] at h
      have hrest : objLookup rest k2 = none :=
        objLookup_eq_none_of_not_key rest k2 (hk ▸ hnd.1)
      rw [hstep, lookup_dictUpdate_of_not_mem rest (objSet e kv.1 kv.2) k2 hrest,
          objLookup_objSet, if_pos hk.symm]
      exact h
    · rw [if_neg hk] at h
      exact hstep ▸ ih (objSet e kv.1 kv.2) k2 v hnd.2 h

/-- C5 amended: the update_track merge is one level deep: when the existing
and new values at a top-level key are both mappings, the new mapping's entries
are written into the existing mapping key-by-key (a shallow dict update, so
sibling keys at depth one are preserved and looked-up keys take the new
values wholesale); a non-mapping new value replaces the old value. -/
theorem update_track_merges_one_level (t : List (String × JVal)) (k : String)
    (e u : List (String × JVal)) (h : objLookup t k = some (JVal.obj e)) :
    updateTrackMerge t [(k, JVal.obj u)] = objSet t k (JVal.obj (dictUpdate e u))
  ∧ objLookup (updateTrackMerge t [(k, JVal.obj u)]) k
      = some (JVal.obj (dictUpdate e u))
  ∧ (∀ k2, objLookup u k2 = none →
       objLookup (dictUpdate e u) k2 = objLookup e k2)
  ∧ (∀ k2 v, (u.map Prod.fst).Nodup → objLookup u k2 = some v →
       objLookup (dictUpdate e u) k2 = some v)
  ∧ (∀ k3 (v : JVal), isObjJ v = false →
       objLookup (updateTrackMerge t [(k3, v)]) k3 = some v) := by
  have h1 : updateTrackMerge t [(k, JVal.obj u)]
      = objSet t k (JVal.obj (dictUpdate e u)) := by
    simp [updateTrackMerge, h]
  refine ⟨h1, ?_, ?_, ?_, ?_⟩
  · rw [h1, objLookup_objSet, if_pos rfl]
  · intro k2 hk2
    exact lookup_dictUpdate_of_not_mem u e k2 hk2
  · intro k2 v hnd hk2
    exact lookup_dictUpdate_of_mem u e k2 v hnd hk2
  · intro k3 v hv
    have h2 : updateTrackMerge t [(k3, v)] = objSet t k3 v := by
      cases v <;> simp_all [updateTrackMerge, isObjJ]
    rw [h2, objLookup_objSet, if_pos rfl]

/-- Record used in the merge-depth counterexample: a track whose image key
holds a mapping with a nested mapping meta carrying a sibling key keep. -/
def mergeExampleTrack : List (String × JVal) :=
  [("image", JVal.obj [("meta", JVal.obj [("x", JVal.num 1), ("keep", JVal.str "v")])])]

/-- Update used in the merge-depth counterexample: touches only image.meta.x. -/
def mergeExampleUpdates : List (String × JVal) :=
  [("image", JVal.obj [("meta", JVal.obj [("x", JVal.num 3)])])]

/-- C5 counterexample: update_track does not merge recursively at every
nesting depth: the depth-two sibling key image.meta.keep, present before the
update and not mentioned by it, is dropped by the code's merge, while the
spec-modelled recursive merge (at any sufficient depth) preserves it; hence
the two merges differ. -/
theorem update_track_not_deep_cx :
    objLookupPath (updateTrackMerge mergeExampleTrack mergeExampleUpdates)
        ["image", "meta", "keep"] = none
  ∧ objLookupPath mergeExampleTrack ["image", "meta", "keep"] = some (JVal.str "v")
  ∧ objLookupPath mergeExampleUpdates ["image", "meta", "keep"] = none
  ∧ objLookupPath (specDeepMergeObj 2 mergeExampleTrack mergeExampleUpdates)
        ["image", "meta", "keep"] = some (JVal.str "v")
  ∧ updateTrackMerge mergeExampleTrack mergeExampleUpdates
      ≠ specDeepMergeObj 2 mergeExampleTrack mergeExampleUpdates := by
  have hcode : objLookupPath (updateTrackMerge mergeExampleTrack mergeExampleUpdates)
      ["image", "meta", "keep"] = none := rfl
  have hspec : objLookupPath (specDeepMergeObj 2 mergeExampleTrack mergeExampleUpdates)
      ["image", "meta", "keep"] = some (JVal.str "v") := rfl
  refine ⟨hcode, rfl, rfl, hspec, ?_⟩
  intro heq
  rw [heq, hspec] at hcode
  exact Option.noConfusion hcode

/-- Record used to instantiate the preserved-sibling example: image already
has prompt_used set. -/
def promptExampleTrack : List (String × JVal) :=
  [("image", JVal.obj [("status", JVal.str "pending"), ("prompt_used", JVal.str "p")])]

/-- C5 witness: updating image.status to completed on a record whose image
mapping already has prompt_used set preserves prompt_used (depth-one sibling)
while status takes the new value. -/
theorem update_track_merges_one_level_witness :
    objLookup promptExampleTrack "image"
      = some (JVal.obj [("status", JVal.str "pending"), ("prompt_used", JVal.str "p")])
  ∧ objLookup
      (updateTrackMerge promptExampleTrack [("image", JVal.obj [("status", JVal.str "completed")])])
      "image"
      = some (JVal.obj
          (dictUpdate [("status", JVal.str "pending"), ("prompt_used", JVal.str "p")]
            [("status", JVal.str "completed")]))
  ∧ objLookup
      (dictUpdate [("status", JVal.str "pending"), ("prompt_used", JVal.str "p")]
        [("status", JVal.str "completed")]) "prompt_used"
      = some (JVal.str "p")
  ∧ objLookup
      (dictUpdate [("status", JVal.str "pending"), ("prompt_used", JVal.str "p")]
        [("status", JVal.str "completed")]) "status"
      = some (JVal.str "completed") := by
  have h := update_track_merges_one_level promptExampleTrack "image"
    [("status", JVal.str "pending"), ("prompt_used", JVal.str "p")]
    [("status", JVal.str "completed")] rfl
  refine ⟨rfl, h.2.1, ?_, ?_⟩
  · rw [h.2.2.1 "prompt_used" rfl]
    rfl
  · exact h.2.2.2.1 "status" (JVal.str "completed") (by simp) rfl

end Playlist
